import Mathlib

/-!
# Order creation and payment capture (`api/order.go`)

A shallow embedding of the two handlers `createNewOrder` (with its entry point
`createOrder`) and `payOrder` / `processBrainTree`.

* The numeric type of the monetary fields and of quantities is declared in the
  `models` package, which is not part of the sources at hand.  It is a type
  parameter `M`; the handlers only use `0`, `+` and `*` on it.  Theorems assume a
  commutative ring, which covers both the integers and Go's wrapping machine
  integers.
* The repositories, the validators, the payment gateways and the UUID generator
  are collaborators outside the sources.  Each call's result is supplied by an
  environment record; calls made inside a loop also receive the number of the
  iteration, so that successive calls may answer differently.
* Every call to a collaborator is recorded, in program order, in a trace of
  `Effect`s.  `DbState.run` replays a trace against a small model of a
  transactional store.
-/

namespace Shopicano

/-! ## Data model -/

/-- An error value, seen through the two classifiers the handlers consult:
`errors.IsRecordNotFoundError` and `errors.IsPreparedError`. -/
structure Err where
  isRecordNotFound : Bool
  isPrepared : Bool
deriving DecidableEq, Repr

/-- The error codes of package `errors` used in `api/order.go`. -/
inductive ErrorCode where
  | OrderDataInvalid
  | PaymentMethodNotFound
  | ShippingMethodNotFound
  | ProductUnavailable
  | DatabaseQueryFailed
  | InvalidRequest
  | OrderNotFound
  | OrderPaymentDataInvalid
  | PaymentProcessingFailed
deriving DecidableEq, Repr

/-- Order status.  The source only mentions `models.Pending`; the other two values
are the ones the specification lists. -/
inductive OrderStatus where
  | Pending
  | Paid
  | PaymentFailed
deriving DecidableEq, Repr

/-- The fields of `models.Order` that `createNewOrder` assigns, together with the
optional transaction id of the specification's data model. -/
structure Order (M : Type) where
  ID : String
  Hash : String
  UserID : String
  StoreID : String
  ShippingAddressID : String
  BillingAddressID : String
  PaymentMethodID : String
  ShippingMethodID : Option String
  IsPaid : Bool
  SubTotal : M
  TotalTax : M
  TotalVat : M
  ShippingCharge : M
  GrandTotal : M
  PaymentProcessingFee : M
  PaymentGateway : Option String
  Status : Option OrderStatus
  TransactionID : Option String
deriving DecidableEq, Repr

/-- The fields of `models.OrderedItem` set in `createNewOrder`. -/
structure OrderedItem (M : Type) where
  OrderID : String
  ProductID : String
  Quantity : M
  Price : M
  TotalVat : M
  TotalTax : M
  SubTotal : M
deriving DecidableEq, Repr

/-- What `createNewOrder` reads of the product returned by `GetForOrder`. -/
structure Product (M : Type) where
  ID : String
  Price : M
deriving DecidableEq, Repr

/-- A payment method: its id and its method `CalculateProcessingFee`. -/
structure PaymentMethod (M : Type) where
  ID : String
  CalculateProcessingFee : M → M

/-- A shipping method: its id and its method `CalculateDeliveryCharge`. -/
structure ShippingMethod (M : Type) where
  ID : String
  CalculateDeliveryCharge : M → M

/-- One requested line of `validators.ReqOrderCreate`. -/
structure ReqOrderItem (M : Type) where
  ID : String
  Quantity : M
deriving DecidableEq, Repr

/-- The payload `validators.ReqOrderCreate`, as far as `createNewOrder` reads it. -/
structure ReqOrderCreate (M : Type) where
  UserID : String
  StoreID : String
  ShippingAddressID : String
  BillingAddressID : String
  PaymentMethodID : String
  ShippingMethodID : Option String
  Items : List (ReqOrderItem M)
deriving DecidableEq, Repr

/-- The fields of `models.OrderDetailsView` read or written by the handlers. -/
structure OrderDetailsView where
  ID : String
  PaymentGateway : String
  Nonce : Option String
  TransactionID : Option String
deriving DecidableEq, Repr

/-- The payload of `core.Response`. -/
inductive Data where
  | empty
  | details (m : OrderDetailsView)
  | transaction (transaction_id : String)
deriving DecidableEq, Repr

/-- The envelope `core.Response`; a code that was never assigned is `none`. -/
structure Response where
  Title : String
  Status : Nat
  Code : Option ErrorCode
  Errors : Option Err
  Data : Data
deriving DecidableEq, Repr

/-- A call to a collaborator, with the error it returned (`none` on success). -/
inductive Effect (M : Type) where
  | Begin
  | GetPaymentMethod (id : String) (err : Option Err)
  | GetShippingMethod (id : String) (err : Option Err)
  | GetForOrder (storeID productID : String) (quantity : M) (err : Option Err)
  | Create (o : Order M) (err : Option Err)
  | AddOrderedItem (oi : OrderedItem M) (err : Option Err)
  | GetDetails (orderID : String) (err : Option Err)
  | Commit (err : Option Err)
  | Rollback
  | Pay (gateway : String) (o : OrderDetailsView) (err : Option Err)
deriving DecidableEq, Repr

/-- The collaborators of `createNewOrder`. -/
structure Env (M : Type) where
  NewUUID : String
  NewShortUUID : String
  GetPaymentMethod : String → Except Err (PaymentMethod M)
  GetShippingMethod : String → Except Err (ShippingMethod M)
  GetForOrder : Nat → String → String → M → Except Err (Product M)
  ActiveGatewayName : String
  Create : Order M → Option Err
  AddOrderedItem : Nat → OrderedItem M → Option Err
  GetDetails : String → Except Err OrderDetailsView
  Commit : Option Err

/-- What a run of `createNewOrder` leaves behind: the response written and the
calls made. -/
structure Outcome (M : Type) where
  resp : Response
  trace : List (Effect M)

/-! ## `createNewOrder` -/

/-- The locals `o`, `availableItems` when the reservation loop is left, the error
that ended it early (if any), and the calls it made. -/
structure LoopExit (M : Type) where
  err : Option Err
  o : Order M
  availableItems : List (OrderedItem M)
  trace : List (Effect M)

/-- The loop `for _, v := range pld.Items` of `createNewOrder` (lines 124-159).
The first argument counts the iterations done so far. -/
def reserveItems {M : Type} [Zero M] [Add M] [Mul M] (env : Env M) :
    Nat → List (ReqOrderItem M) → Order M → List (OrderedItem M) → LoopExit M
  | _, [], o, availableItems => ⟨none, o, availableItems, []⟩
  | i, v :: rest, o, availableItems =>
    match env.GetForOrder i o.StoreID v.ID v.Quantity with
    | .error err =>
      ⟨some err, o, availableItems, [Effect.GetForOrder o.StoreID v.ID v.Quantity (some err)]⟩
    | .ok item =>
      let oi : OrderedItem M :=
        { OrderID := o.ID, ProductID := item.ID, Quantity := v.Quantity, Price := item.Price,
          TotalVat := 0, TotalTax := 0, SubTotal := 0 }
      let oi := { oi with SubTotal := v.Quantity * item.Price }
      let call := Effect.GetForOrder o.StoreID v.ID v.Quantity none
      let o := { o with SubTotal := o.SubTotal + oi.SubTotal }
      let o := { o with TotalTax := o.TotalTax + oi.TotalTax }
      let o := { o with TotalVat := o.TotalVat + oi.TotalVat }
      let r := reserveItems env (i + 1) rest o (availableItems ++ [oi])
      { r with trace := call :: r.trace }

/-- The loop `for _, v := range availableItems` of `createNewOrder` (lines 191-201):
the error that ended it early (if any) and the calls it made. -/
def addItems {M : Type} (env : Env M) :
    Nat → List (OrderedItem M) → Option Err × List (Effect M)
  | _, [] => (none, [])
  | i, v :: rest =>
    match env.AddOrderedItem i v with
    | some err => (some err, [Effect.AddOrderedItem v (some err)])
    | none =>
      let r := addItems env (i + 1) rest
      (r.1, Effect.AddOrderedItem v none :: r.2)

/-- The order `o` of `createNewOrder` after lines 65-74. -/
def newOrder {M : Type} [Zero M] (env : Env M) (pld : ReqOrderCreate M) : Order M :=
  { ID := env.NewUUID, Hash := env.NewShortUUID, UserID := pld.UserID, StoreID := pld.StoreID,
    ShippingAddressID := pld.ShippingAddressID, BillingAddressID := pld.BillingAddressID,
    PaymentMethodID := pld.PaymentMethodID, ShippingMethodID := pld.ShippingMethodID,
    IsPaid := false, SubTotal := 0, TotalTax := 0, TotalVat := 0, ShippingCharge := 0,
    GrandTotal := 0, PaymentProcessingFee := 0, PaymentGateway := none, Status := none,
    TransactionID := none }

/-- Lines 99-120 of `createNewOrder`: the shipping method `sm` (nil when the request
names none) or the error of the lookup, and the calls made. -/
def resolveShippingMethod {M : Type} (env : Env M) (o : Order M) :
    Except Err (Option (ShippingMethod M)) × List (Effect M) :=
  match o.ShippingMethodID with
  | none => (.ok none, [])
  | some id =>
    match env.GetShippingMethod id with
    | .error err => (.error err, [Effect.GetShippingMethod id (some err)])
    | .ok sm => (.ok (some sm), [Effect.GetShippingMethod id none])

/-- Lines 161-170 of `createNewOrder`: shipping charge, grand total, processing fee,
gateway name and status.  `sm` is the method looked up when the order names one. -/
def priceOrder {M : Type} [Zero M] [Add M] (env : Env M) (pm : PaymentMethod M)
    (sm : Option (ShippingMethod M)) (o : Order M) : Order M :=
  let o := match o.ShippingMethodID, sm with
    | some _, some sm => { o with ShippingCharge := sm.CalculateDeliveryCharge 0 }
    | _, _ => o
  let pgName := env.ActiveGatewayName
  let o := { o with GrandTotal := o.SubTotal + o.TotalTax + o.TotalVat + o.ShippingCharge }
  let o := { o with PaymentProcessingFee := pm.CalculateProcessingFee o.GrandTotal }
  let o := { o with PaymentGateway := some pgName }
  { o with Status := some OrderStatus.Pending }

/-- The handler `createNewOrder` (lines 60-225). -/
def createNewOrder {M : Type} [Zero M] [Add M] [Mul M] (env : Env M) (pld : ReqOrderCreate M) :
    Outcome M :=
  let o := newOrder env pld
  match env.GetPaymentMethod o.PaymentMethodID with
  | .error err =>
    let tr := [Effect.Begin, Effect.GetPaymentMethod o.PaymentMethodID (some err), Effect.Rollback]
    if err.isRecordNotFound then
      ⟨⟨"Payment method not found", 404, some .PaymentMethodNotFound, some err, .empty⟩, tr⟩
    else
      ⟨⟨"Database query failed", 500, some .DatabaseQueryFailed, some err, .empty⟩, tr⟩
  | .ok pm =>
    let tr := [Effect.Begin, Effect.GetPaymentMethod o.PaymentMethodID none]
    match resolveShippingMethod env o with
    | (.error err, es) =>
      let tr := tr ++ es ++ [Effect.Rollback]
      if err.isRecordNotFound then
        ⟨⟨"Shipping method not found", 404, some .ShippingMethodNotFound, some err, .empty⟩, tr⟩
      else
        ⟨⟨"Database query failed", 500, some .DatabaseQueryFailed, some err, .empty⟩, tr⟩
    | (.ok sm, es) =>
      let tr := tr ++ es
      let loop := reserveItems env 0 pld.Items o []
      let tr := tr ++ loop.trace
      match loop.err with
      | some err =>
        let tr := tr ++ [Effect.Rollback]
        if err.isRecordNotFound then
          ⟨⟨"Product unavailable", 404, some .ProductUnavailable, some err, .empty⟩, tr⟩
        else
          ⟨⟨"Database query failed", 500, some .DatabaseQueryFailed, some err, .empty⟩, tr⟩
      | none =>
        let availableItems := loop.availableItems
        let o := priceOrder env pm sm loop.o
        match env.Create o with
        | some err =>
          let tr := tr ++ [Effect.Create o (some err)]
          if err.isPrepared then
            ⟨⟨"Invalid request", 400, some .InvalidRequest, some err, .empty⟩, tr⟩
          else
            ⟨⟨"Database query failed", 500, some .DatabaseQueryFailed, some err, .empty⟩, tr⟩
        | none =>
          let tr := tr ++ [Effect.Create o none]
          let added := addItems env 0 availableItems
          let tr := tr ++ added.2
          match added.1 with
          | some err =>
            let tr := tr ++ [Effect.Rollback]
            ⟨⟨"Database query failed", 500, some .DatabaseQueryFailed, some err, .empty⟩, tr⟩
          | none =>
            match env.GetDetails o.ID with
            | .error err =>
              let tr := tr ++ [Effect.GetDetails o.ID (some err), Effect.Rollback]
              ⟨⟨"Order not found", 404, some .OrderNotFound, some err, .empty⟩, tr⟩
            | .ok m =>
              let tr := tr ++ [Effect.GetDetails o.ID none]
              match env.Commit with
              | some err =>
                let tr := tr ++ [Effect.Commit (some err)]
                ⟨⟨"Database query failed", 500, some .DatabaseQueryFailed, some err, .empty⟩, tr⟩
              | none =>
                let tr := tr ++ [Effect.Commit none]
                ⟨⟨"", 201, none, none, .details m⟩, tr⟩

/-- The reservation loop as `createNewOrder` runs it: from the fresh order, with no
item built yet. -/
abbrev reservation {M : Type} [Zero M] [Add M] [Mul M] (env : Env M) (pld : ReqOrderCreate M) :
    LoopExit M :=
  reserveItems env 0 pld.Items (newOrder env pld) []

/-- Modelled from the spec: `validators.ValidateCreateOrder` is not part of the
sources.  The specification (4.1, edge cases) has an empty item list rejected by
the caller-side validation before the transaction starts; whatever else the
validator checks is the parameter `check`. -/
def ValidateCreateOrder {M : Type} (check : ReqOrderCreate M → Option Err)
    (body : ReqOrderCreate M) : Except Err (ReqOrderCreate M) :=
  if body.Items.isEmpty then .error ⟨false, false⟩
  else
    match check body with
    | some err => .error err
    | none => .ok body

/-- The handler `createOrder` (lines 41-58). -/
def createOrder {M : Type} [Zero M] [Add M] [Mul M] (env : Env M)
    (check : ReqOrderCreate M → Option Err) (userID : String) (body : ReqOrderCreate M) :
    Outcome M :=
  match ValidateCreateOrder check body with
  | .error err => ⟨⟨"Invalid data", 422, some .OrderDataInvalid, some err, .empty⟩, []⟩
  | .ok pld =>
    let pld := { pld with UserID := userID }
    createNewOrder env pld

/-! ## `payOrder` -/

/-- A payment gateway: its methods `GetName` and `Pay`; a successful `Pay` returns
`res.Result`. -/
structure Gateway where
  GetName : String
  Pay : OrderDetailsView → Except Err String

/-- The request body of the capture endpoint. -/
structure resBrainTreeNonce where
  Nonce : Option String
deriving DecidableEq, Repr

/-- The collaborators of `payOrder`: the order repository, the decoding of the
request body (`ctx.Bind`) and the active payment gateway. -/
structure PayEnv where
  GetDetails : String → Except Err OrderDetailsView
  Bind : Except Err resBrainTreeNonce
  GetActivePaymentGateway : Gateway

/-- What a run of `payOrder` leaves behind: the response written (`none` when the
handler returns without writing one), the in-memory view `m` as it is at return,
and the calls made. -/
structure PayOutcome (M : Type) where
  resp : Option Response
  view : Option OrderDetailsView
  trace : List (Effect M)

/-- The handler `processBrainTree` (lines 489-519). -/
def processBrainTree {M : Type} (env : PayEnv) (o : OrderDetailsView) : PayOutcome M :=
  match env.Bind with
  | .error err =>
    ⟨some ⟨"Invalid data", 422, some .OrderPaymentDataInvalid, some err, .empty⟩, some o, []⟩
  | .ok body =>
    let o := { o with Nonce := body.Nonce }
    let gw := env.GetActivePaymentGateway
    match gw.Pay o with
    | .error err =>
      ⟨some ⟨"Failed to process payment", 500, some .PaymentProcessingFailed, some err, .empty⟩,
        some o, [Effect.Pay gw.GetName o (some err)]⟩
    | .ok res =>
      let call := Effect.Pay gw.GetName o none
      let o := { o with TransactionID := some res }
      ⟨some ⟨"", 200, none, none, .transaction res⟩, some o, [call]⟩

/-- The handler `payOrder` (lines 461-483). -/
def payOrder {M : Type} (env : PayEnv) (orderID : String) : PayOutcome M :=
  match env.GetDetails orderID with
  | .error err =>
    ⟨some ⟨"Order not found", 404, some .OrderNotFound, some err, .empty⟩, none,
      [Effect.GetDetails orderID (some err)]⟩
  | .ok m =>
    if m.PaymentGateway = "brainTree" then
      let r : PayOutcome M := processBrainTree env m
      { r with trace := Effect.GetDetails orderID none :: r.trace }
    else
      ⟨none, some m, [Effect.GetDetails orderID none]⟩

/-! ## The transactional store -/

/-- The rows the handlers write: order headers, line items and stock reservations
(store, product, quantity). -/
structure Tables (M : Type) where
  orders : List (Order M)
  items : List (OrderedItem M)
  reserved : List (String × String × M)
deriving DecidableEq, Repr

/-- Modelled from the spec: the database (`app.DB()`, gorm) is not part of the
sources.  `stored` holds the committed rows; `tx` is the working copy of an open
transaction, `none` when no transaction is open. -/
structure DbState (M : Type) where
  stored : Tables M
  tx : Option (Tables M)
deriving DecidableEq, Repr

/-- A write goes to the working copy of the open transaction, or straight to the
stored rows when no transaction is open. -/
def DbState.write {M : Type} (s : DbState M) (f : Tables M → Tables M) : DbState M :=
  match s.tx with
  | some t => { s with tx := some (f t) }
  | none => { s with stored := f s.stored }

/-- Modelled from the spec: the effect of one call on the store.  `Begin` opens a
working copy, a successful reservation, header or item write changes it, a
successful `Commit` makes it the stored state, `Rollback` drops it.  Failed calls
and reads change nothing. -/
def DbState.step {M : Type} (s : DbState M) : Effect M → DbState M
  | .Begin => { s with tx := some s.stored }
  | .GetForOrder storeID productID quantity none =>
    s.write fun t => { t with reserved := t.reserved ++ [(storeID, productID, quantity)] }
  | .Create o none => s.write fun t => { t with orders := t.orders ++ [o] }
  | .AddOrderedItem oi none => s.write fun t => { t with items := t.items ++ [oi] }
  | .Commit none =>
    match s.tx with
    | some t => ⟨t, none⟩
    | none => s
  | .Rollback => { s with tx := none }
  | _ => s

/-- Replays a trace of calls against the store. -/
def DbState.run {M : Type} (s : DbState M) (tr : List (Effect M)) : DbState M :=
  tr.foldl DbState.step s

/-- The stored order with the given id, if any. -/
def Tables.order {M : Type} (t : Tables M) (id : String) : Option (Order M) :=
  t.orders.find? fun o => o.ID == id

/-- The stored line items owned by the order with the given id. -/
def Tables.itemsOf {M : Type} (t : Tables M) (id : String) : List (OrderedItem M) :=
  t.items.filter fun oi => oi.OrderID == id

/-- The order headers handed to `ou.Create` in a trace. -/
def createdOrders {M : Type} : List (Effect M) → List (Order M)
  | [] => []
  | .Create o _ :: tr => o :: createdOrders tr
  | _ :: tr => createdOrders tr

/-- The line items handed to `ou.AddOrderedItem` in a trace. -/
def addedItems {M : Type} : List (Effect M) → List (OrderedItem M)
  | [] => []
  | .AddOrderedItem oi _ :: tr => oi :: addedItems tr
  | _ :: tr => addedItems tr

/-- Whether a call is a reservation (`GetForOrder`). -/
def Effect.isReservation {M : Type} : Effect M → Bool
  | .GetForOrder _ _ _ _ => true
  | _ => false

/-- Whether a call is a write of an order header or of a line item. -/
def Effect.isRowWrite {M : Type} : Effect M → Bool
  | .Create _ _ => true
  | .AddOrderedItem _ _ => true
  | _ => false

/-- Whether a call opens or closes a transaction. -/
def Effect.isTxControl {M : Type} : Effect M → Bool
  | .Begin => true
  | .Commit _ => true
  | .Rollback => true
  | _ => false

/-! ## Sample inputs -/

/-- An environment in which every call succeeds: unit prices 10 for product `p1`
and 5 for any other, a flat shipping charge of 3, no processing fee. -/
def sampleEnv : Env Int where
  NewUUID := "o1"
  NewShortUUID := "h1"
  GetPaymentMethod := fun id => .ok ⟨id, fun _ => 0⟩
  GetShippingMethod := fun id => .ok ⟨id, fun _ => 3⟩
  GetForOrder := fun _ _ productID _ => .ok ⟨productID, if productID = "p1" then 10 else 5⟩
  ActiveGatewayName := "brainTree"
  Create := fun _ => none
  AddOrderedItem := fun _ _ => none
  GetDetails := fun id => .ok ⟨id, "brainTree", none, none⟩
  Commit := none

/-- The request of the specification's scenario: two units of `p1`, one of `p2`,
with a shipping method. -/
def samplePld : ReqOrderCreate Int :=
  { UserID := "u1", StoreID := "s1", ShippingAddressID := "a1", BillingAddressID := "a2",
    PaymentMethodID := "pm1", ShippingMethodID := some "sm1",
    Items := [⟨"p1", 2⟩, ⟨"p2", 1⟩] }

/-- As `sampleEnv`, but the second reservation reports record-not-found. -/
def outOfStockEnv : Env Int :=
  { sampleEnv with
    GetForOrder := fun i _ productID _ =>
      if i = 0 then .ok ⟨productID, 10⟩ else .error ⟨true, false⟩ }

/-- As `sampleEnv`, but the payment method charges 2 plus the amount. -/
def feeEnv : Env Int :=
  { sampleEnv with GetPaymentMethod := fun id => .ok ⟨id, fun total => total + 2⟩ }

/-- As `sampleEnv`, but the payment method is not found. -/
def noPaymentMethodEnv : Env Int :=
  { sampleEnv with GetPaymentMethod := fun _ => .error ⟨true, false⟩ }

/-- As `sampleEnv`, but persisting the order header fails. -/
def createFailsEnv : Env Int :=
  { sampleEnv with Create := fun _ => some ⟨false, false⟩ }

/-- An empty store with no transaction open. -/
def emptyDb : DbState Int := ⟨⟨[], [], []⟩, none⟩

/-- The store after the sample order has been created in the empty store. -/
def sampleDb : DbState Int := emptyDb.run (createNewOrder sampleEnv samplePld).trace

/-- The order `o1` is stored with gateway `brainTree`; the capture request carries a
nonce; the active gateway is named `stripe` and its `Pay` succeeds. -/
def stripeActiveEnv : PayEnv where
  GetDetails := fun id => .ok ⟨id, "brainTree", none, none⟩
  Bind := .ok ⟨some "nonce1"⟩
  GetActivePaymentGateway := ⟨"stripe", fun _ => .ok "tx1"⟩

/-- The order `o1` is stored with gateway `brainTree`, which is also the active
gateway; its `Pay` succeeds with transaction id `tx1`. -/
def captureEnv : PayEnv where
  GetDetails := fun id => .ok ⟨id, "brainTree", none, none⟩
  Bind := .ok ⟨some "nonce1"⟩
  GetActivePaymentGateway := ⟨"brainTree", fun _ => .ok "tx1"⟩

/-- As `captureEnv`, but the gateway's `Pay` fails. -/
def declinedEnv : PayEnv where
  GetDetails := fun id => .ok ⟨id, "brainTree", none, none⟩
  Bind := .ok ⟨some "nonce1"⟩
  GetActivePaymentGateway := ⟨"brainTree", fun _ => .error ⟨false, false⟩⟩

/-- As `samplePld`, but both lines name the product `p1`. -/
def duplicateLinesPld : ReqOrderCreate Int :=
  { samplePld with Items := [⟨"p1", 2⟩, ⟨"p1", 3⟩] }

/-- The order `o1` is stored with the gateway name `stripe`, which `payOrder` does
not list; the active gateway is `brainTree`. -/
def unlistedGatewayEnv : PayEnv where
  GetDetails := fun id => .ok ⟨id, "stripe", none, none⟩
  Bind := .ok ⟨some "nonce1"⟩
  GetActivePaymentGateway := ⟨"brainTree", fun _ => .ok "tx1"⟩

/-! ## The reservation loop -/

section Loops

variable {M : Type}

/-- The locals at the exit of the reservation loop: the items built are appended to
`availableItems`, the three running totals grow by the items' amounts, and a loop
that ends without error has built one item per requested line. -/
theorem reserveItems_exit [CommRing M] (env : Env M) (reqs : List (ReqOrderItem M)) :
    ∀ (i : Nat) (o : Order M) (avail : List (OrderedItem M)),
      ∃ new : List (OrderedItem M),
        (reserveItems env i reqs o avail).availableItems = avail ++ new ∧
        (reserveItems env i reqs o avail).o =
          { o with
            SubTotal := o.SubTotal + (new.map fun oi => oi.SubTotal).sum
            TotalTax := o.TotalTax + (new.map fun oi => oi.TotalTax).sum
            TotalVat := o.TotalVat + (new.map fun oi => oi.TotalVat).sum } ∧
        (∀ oi ∈ new, oi.TotalTax = 0 ∧ oi.TotalVat = 0 ∧ oi.OrderID = o.ID) ∧
        ((reserveItems env i reqs o avail).err = none → new.length = reqs.length) := by
  induction reqs with
  | nil =>
    intro i o avail
    exact ⟨[], by simp [reserveItems]⟩
  | cons v rest ih =>
    intro i o avail
    cases h : env.GetForOrder i o.StoreID v.ID v.Quantity with
    | error err => exact ⟨[], by simp [reserveItems, h]⟩
    | ok item =>
      simp only [reserveItems, h]
      obtain ⟨new, h1, h2, h3, h4⟩ := ih (i + 1)
        { o with
          SubTotal := o.SubTotal + v.Quantity * item.Price
          TotalTax := o.TotalTax + 0
          TotalVat := o.TotalVat + 0 }
        (avail ++ [⟨o.ID, item.ID, v.Quantity, item.Price, 0, 0, v.Quantity * item.Price⟩])
      refine ⟨⟨o.ID, item.ID, v.Quantity, item.Price, 0, 0, v.Quantity * item.Price⟩ :: new,
        ?_, ?_, ?_, ?_⟩
      · simpa using h1
      · rw [h2]
        simp [add_assoc]
      · intro oi hoi
        rcases List.mem_cons.mp hoi with rfl | hmem
        · simp
        · simpa using h3 oi hmem
      · intro herr
        simpa using h4 herr

/-- The item at position `j` among those the reservation loop has built comes from
the `j`-th requested line and from the product the `j`-th reservation returned. -/
theorem reserveItems_getElem [CommRing M] (env : Env M) (reqs : List (ReqOrderItem M)) :
    ∀ (i : Nat) (o : Order M) (avail : List (OrderedItem M)) (j : Nat) (oi : OrderedItem M),
      (reserveItems env i reqs o avail).availableItems[avail.length + j]? = some oi →
      ∃ v p, reqs[j]? = some v ∧
        env.GetForOrder (i + j) o.StoreID v.ID v.Quantity = .ok p ∧
        oi = ⟨o.ID, p.ID, v.Quantity, p.Price, 0, 0, v.Quantity * p.Price⟩ := by
  induction reqs with
  | nil =>
    intro i o avail j oi h
    simp only [reserveItems] at h
    rw [List.getElem?_eq_none (by omega)] at h
    cases h
  | cons v rest ih =>
    intro i o avail j oi h
    cases hg : env.GetForOrder i o.StoreID v.ID v.Quantity with
    | error err =>
      simp only [reserveItems, hg] at h
      rw [List.getElem?_eq_none (by omega)] at h
      cases h
    | ok item =>
      simp only [reserveItems, hg] at h
      cases j with
      | zero =>
        obtain ⟨new, h1, -⟩ := reserveItems_exit env rest (i + 1)
          { o with
            SubTotal := o.SubTotal + v.Quantity * item.Price
            TotalTax := o.TotalTax + 0
            TotalVat := o.TotalVat + 0 }
          (avail ++ [⟨o.ID, item.ID, v.Quantity, item.Price, 0, 0, v.Quantity * item.Price⟩])
        rw [h1, List.append_assoc, List.getElem?_append_right (by omega)] at h
        simp at h
        exact ⟨v, item, by simp, by simpa using hg, h.symm⟩
      | succ j =>
        have h2 := ih (i + 1)
          { o with
            SubTotal := o.SubTotal + v.Quantity * item.Price
            TotalTax := o.TotalTax + 0
            TotalVat := o.TotalVat + 0 }
          (avail ++ [⟨o.ID, item.ID, v.Quantity, item.Price, 0, 0, v.Quantity * item.Price⟩])
          j oi (by
            have e : (avail ++ [(⟨o.ID, item.ID, v.Quantity, item.Price, 0, 0,
                v.Quantity * item.Price⟩ : OrderedItem M)]).length + j
                = avail.length + (j + 1) := by
              simp
              omega
            rw [e]
            exact h)
        obtain ⟨v2, p, hv, hp, hoi⟩ := h2
        refine ⟨v2, p, by simpa using hv, ?_, hoi⟩
        have e : i + (j + 1) = i + 1 + j := by omega
        rw [e]
        exact hp

/-- The reservation loop only calls `GetForOrder`, and a call that failed is the one
that ended the loop. -/
theorem reserveItems_trace [CommRing M] (env : Env M) (reqs : List (ReqOrderItem M)) :
    ∀ (i : Nat) (o : Order M) (avail : List (OrderedItem M)),
      ∀ e ∈ (reserveItems env i reqs o avail).trace,
        ∃ sid pid q oe, e = Effect.GetForOrder sid pid q oe ∧
          ∀ err, oe = some err → (reserveItems env i reqs o avail).err = some err := by
  induction reqs with
  | nil =>
    intro i o avail e he
    simp [reserveItems] at he
  | cons v rest ih =>
    intro i o avail e he
    cases hg : env.GetForOrder i o.StoreID v.ID v.Quantity with
    | error err =>
      simp only [reserveItems, hg, List.mem_singleton] at he ⊢
      exact ⟨_, _, _, _, he, by simp⟩
    | ok item =>
      simp only [reserveItems, hg, List.mem_cons] at he ⊢
      rcases he with rfl | he
      · exact ⟨_, _, _, _, rfl, by simp⟩
      · exact ih _ _ _ e he

/-- The item loop only calls `AddOrderedItem`. -/
theorem addItems_trace (env : Env M) (l : List (OrderedItem M)) :
    ∀ (i : Nat), ∀ e ∈ (addItems env i l).2, ∃ oi oe, e = Effect.AddOrderedItem oi oe := by
  induction l with
  | nil =>
    intro i e he
    simp [addItems] at he
  | cons v rest ih =>
    intro i e he
    cases hg : env.AddOrderedItem i v with
    | some err =>
      simp only [addItems, hg, List.mem_singleton] at he
      exact ⟨_, _, he⟩
    | none =>
      simp only [addItems, hg, List.mem_cons] at he
      rcases he with rfl | he
      · exact ⟨_, _, rfl⟩
      · exact ih _ e he

/-- An item loop that ends without error has handed over every item, in order, and
each call succeeded. -/
theorem addItems_ok (env : Env M) (l : List (OrderedItem M)) :
    ∀ (i : Nat), (addItems env i l).1 = none →
      (addItems env i l).2 = l.map fun oi => Effect.AddOrderedItem oi none := by
  induction l with
  | nil =>
    intro i _
    simp [addItems]
  | cons v rest ih =>
    intro i h
    cases hg : env.AddOrderedItem i v with
    | some err => simp [addItems, hg] at h
    | none =>
      simp only [addItems, hg] at h ⊢
      simp [ih (i + 1) h]

end Loops

/-! ## Reading a trace -/

section Traces

variable {M : Type}

theorem createdOrders_append (a b : List (Effect M)) :
    createdOrders (a ++ b) = createdOrders a ++ createdOrders b := by
  induction a with
  | nil => rfl
  | cons e a ih => cases e <;> simp [createdOrders, ih]

theorem addedItems_append (a b : List (Effect M)) :
    addedItems (a ++ b) = addedItems a ++ addedItems b := by
  induction a with
  | nil => rfl
  | cons e a ih => cases e <;> simp [addedItems, ih]

/-- A trace without header or item writes hands no order and no item to the
repository. -/
theorem no_rows_of_no_rowWrite (tr : List (Effect M))
    (h : ∀ e ∈ tr, e.isRowWrite = false) : createdOrders tr = [] ∧ addedItems tr = [] := by
  induction tr with
  | nil => exact ⟨rfl, rfl⟩
  | cons e tr ih =>
    have he := h e (List.mem_cons_self _ _)
    have ih2 := ih fun e2 h2 => h e2 (List.mem_cons_of_mem _ h2)
    cases e <;> simp_all [createdOrders, addedItems, Effect.isRowWrite]

theorem addedItems_map (l : List (OrderedItem M)) :
    addedItems (l.map fun oi => Effect.AddOrderedItem oi none) = l := by
  induction l with
  | nil => rfl
  | cons v l ih => simp [addedItems, ih]

theorem createdOrders_map (l : List (OrderedItem M)) :
    createdOrders (l.map fun oi => Effect.AddOrderedItem oi none) = [] := by
  induction l with
  | nil => rfl
  | cons v l ih => simp [createdOrders, ih]

/-- The shipping-method lookup only calls `GetShippingMethod`. -/
theorem resolveShippingMethod_trace (env : Env M) (o : Order M) :
    ∀ e ∈ (resolveShippingMethod env o).2, ∃ id oe, e = Effect.GetShippingMethod id oe := by
  intro e he
  unfold resolveShippingMethod at he
  split at he
  · simp at he
  · split at he
    · exact ⟨_, _, by simpa using he⟩
    · exact ⟨_, _, by simpa using he⟩

/-- The fields `priceOrder` computes, and the ones it leaves alone. -/
theorem priceOrder_fields [CommRing M] (env : Env M) (pm : PaymentMethod M)
    (sm : Option (ShippingMethod M)) (o : Order M) :
    (priceOrder env pm sm o).GrandTotal =
        (priceOrder env pm sm o).SubTotal + (priceOrder env pm sm o).TotalTax +
          (priceOrder env pm sm o).TotalVat + (priceOrder env pm sm o).ShippingCharge ∧
      (priceOrder env pm sm o).PaymentProcessingFee =
        pm.CalculateProcessingFee (priceOrder env pm sm o).GrandTotal ∧
      (priceOrder env pm sm o).SubTotal = o.SubTotal ∧
      (priceOrder env pm sm o).TotalTax = o.TotalTax ∧
      (priceOrder env pm sm o).TotalVat = o.TotalVat ∧
      (priceOrder env pm sm o).ID = o.ID := by
  unfold priceOrder
  split <;> simp

end Traces

/-! ## Replaying traces against the store -/

section Store

variable {M : Type}

theorem DbState.run_append (s : DbState M) (a b : List (Effect M)) :
    s.run (a ++ b) = (s.run a).run b := by
  simp [DbState.run, List.foldl_append]

theorem DbState.run_cons (s : DbState M) (e : Effect M) (tr : List (Effect M)) :
    s.run (e :: tr) = (s.step e).run tr := rfl

theorem DbState.run_nil (s : DbState M) : s.run [] = s := rfl

/-- Calls that neither open nor close a transaction leave the stored rows alone and
keep an open transaction open. -/
theorem DbState.run_inTx (tr : List (Effect M)) (h : ∀ e ∈ tr, e.isTxControl = false) :
    ∀ (s : DbState M) (t : Tables M), s.tx = some t →
      ∃ t2, s.run tr = ⟨s.stored, some t2⟩ := by
  induction tr with
  | nil =>
    intro s t ht
    exact ⟨t, by cases s; simp_all [DbState.run]⟩
  | cons e tr ih =>
    intro s t ht
    have he := h e (List.mem_cons_self _ _)
    have ih2 := ih fun e2 h2 => h e2 (List.mem_cons_of_mem _ h2)
    have hstep : ∃ t1, s.step e = ⟨s.stored, some t1⟩ := by
      cases s with
      | mk st tx =>
        simp only at ht
        subst ht
        cases e with
        | Begin => simp [Effect.isTxControl] at he
        | Commit err => simp [Effect.isTxControl] at he
        | Rollback => simp [Effect.isTxControl] at he
        | GetPaymentMethod id err => exact ⟨t, rfl⟩
        | GetShippingMethod id err => exact ⟨t, rfl⟩
        | GetDetails id err => exact ⟨t, rfl⟩
        | Pay g o err => exact ⟨t, rfl⟩
        | GetForOrder sid pid q err => cases err <;> exact ⟨_, rfl⟩
        | Create o err => cases err <;> exact ⟨_, rfl⟩
        | AddOrderedItem oi err => cases err <;> exact ⟨_, rfl⟩
    obtain ⟨t1, h1⟩ := hstep
    obtain ⟨t2, h2⟩ := ih2 (s.step e) t1 (by rw [h1])
    exact ⟨t2, by rw [DbState.run_cons, h2, h1]⟩

/-- Reads of reference data and of order details, and gateway calls, do not change
the store. -/
theorem DbState.run_reads (tr : List (Effect M))
    (h : ∀ e ∈ tr, (∃ id oe, e = Effect.GetShippingMethod id oe) ∨
      (∃ id oe, e = Effect.GetDetails id oe) ∨ (∃ g o oe, e = Effect.Pay g o oe)) :
    ∀ s : DbState M, s.run tr = s := by
  induction tr with
  | nil => intro s; rfl
  | cons e tr ih =>
    intro s
    have ih2 := ih fun e2 h2 => h e2 (List.mem_cons_of_mem _ h2)
    rcases h e (List.mem_cons_self _ _) with ⟨_, _, rfl⟩ | ⟨_, _, rfl⟩ | ⟨_, _, _, rfl⟩ <;>
      exact ih2 s

/-- Successful reservations inside a transaction only add reservation rows. -/
theorem DbState.run_reservations (tr : List (Effect M))
    (h : ∀ e ∈ tr, ∃ sid pid q, e = Effect.GetForOrder sid pid q none) :
    ∀ (st t : Tables M), ∃ rs,
      DbState.run ⟨st, some t⟩ tr = ⟨st, some { t with reserved := t.reserved ++ rs }⟩ := by
  induction tr with
  | nil =>
    intro st t
    exact ⟨[], by simp [DbState.run]⟩
  | cons e tr ih =>
    intro st t
    have ih2 := ih fun e2 h2 => h e2 (List.mem_cons_of_mem _ h2)
    obtain ⟨sid, pid, q, rfl⟩ := h e (List.mem_cons_self _ _)
    obtain ⟨rs, hrs⟩ := ih2 st { t with reserved := t.reserved ++ [(sid, pid, q)] }
    refine ⟨(sid, pid, q) :: rs, ?_⟩
    rw [DbState.run_cons]
    simp only [DbState.step, DbState.write]
    rw [hrs]
    simp

/-- Successful item writes inside a transaction add exactly those items. -/
theorem DbState.run_items (l : List (OrderedItem M)) :
    ∀ (st t : Tables M),
      DbState.run ⟨st, some t⟩ (l.map fun oi => Effect.AddOrderedItem oi none)
        = ⟨st, some { t with items := t.items ++ l }⟩ := by
  induction l with
  | nil =>
    intro st t
    simp [DbState.run]
  | cons v l ih =>
    intro st t
    rw [List.map_cons, DbState.run_cons]
    simp only [DbState.step, DbState.write]
    rw [ih]
    simp

/-- A transaction that is opened, makes calls and is rolled back leaves the stored
rows as they were, with no transaction open. -/
theorem DbState.run_rolledBack (mid : List (Effect M))
    (hmid : ∀ e ∈ mid, e.isTxControl = false) (s : DbState M) :
    s.run (Effect.Begin :: mid ++ [Effect.Rollback]) = ⟨s.stored, none⟩ := by
  obtain ⟨t2, h2⟩ := DbState.run_inTx mid hmid (s.step Effect.Begin) s.stored rfl
  rw [List.cons_append, DbState.run_cons, DbState.run_append, h2]
  rfl

end Store

/-! ## The successful run of `createNewOrder` -/

section Created

variable {M : Type}

/-- A run of `createNewOrder` that answers 201 went through every step without an
error, and made exactly the calls listed. -/
theorem createNewOrder_created [CommRing M] (env : Env M) (pld : ReqOrderCreate M)
    (h : (createNewOrder env pld).resp.Status = 201) :
    ∃ pm sm es m,
      env.GetPaymentMethod pld.PaymentMethodID = .ok pm ∧
      resolveShippingMethod env (newOrder env pld) = (.ok sm, es) ∧
      (reserveItems env 0 pld.Items (newOrder env pld) []).err = none ∧
      env.Create (priceOrder env pm sm (reserveItems env 0 pld.Items (newOrder env pld) []).o)
        = none ∧
      (addItems env 0 (reserveItems env 0 pld.Items (newOrder env pld) []).availableItems).1
        = none ∧
      env.Commit = none ∧
      createNewOrder env pld =
        ⟨⟨"", 201, none, none, .details m⟩,
          [Effect.Begin, Effect.GetPaymentMethod pld.PaymentMethodID none] ++ es ++
            (reserveItems env 0 pld.Items (newOrder env pld) []).trace ++
            [Effect.Create
              (priceOrder env pm sm (reserveItems env 0 pld.Items (newOrder env pld) []).o) none]
            ++ (addItems env 0
              (reserveItems env 0 pld.Items (newOrder env pld) []).availableItems).2 ++
            [Effect.GetDetails
              (priceOrder env pm sm (reserveItems env 0 pld.Items (newOrder env pld) []).o).ID
              none,
             Effect.Commit none]⟩ := by
  have hid : (newOrder env pld).PaymentMethodID = pld.PaymentMethodID := rfl
  cases hpm : env.GetPaymentMethod (newOrder env pld).PaymentMethodID with
  | error err =>
    simp only [createNewOrder, hpm] at h
    split at h <;> simp at h
  | ok pm =>
    cases hsm : resolveShippingMethod env (newOrder env pld) with
    | mk res es =>
      cases res with
      | error err =>
        simp only [createNewOrder, hpm, hsm] at h
        split at h <;> simp at h
      | ok sm =>
        cases hl : (reserveItems env 0 pld.Items (newOrder env pld) []).err with
        | some err =>
          simp only [createNewOrder, hpm, hsm, hl] at h
          split at h <;> simp at h
        | none =>
          cases hc : env.Create
              (priceOrder env pm sm (reserveItems env 0 pld.Items (newOrder env pld) []).o) with
          | some err =>
            simp only [createNewOrder, hpm, hsm, hl, hc] at h
            split at h <;> simp at h
          | none =>
            cases ha : (addItems env 0
                (reserveItems env 0 pld.Items (newOrder env pld) []).availableItems).1 with
            | some err =>
              simp only [createNewOrder, hpm, hsm, hl, hc, ha] at h
              simp at h
            | none =>
              cases hd : env.GetDetails
                  (priceOrder env pm sm
                    (reserveItems env 0 pld.Items (newOrder env pld) []).o).ID with
              | error err =>
                simp only [createNewOrder, hpm, hsm, hl, hc, ha, hd] at h
                simp at h
              | ok m =>
                cases hk : env.Commit with
                | some err =>
                  simp only [createNewOrder, hpm, hsm, hl, hc, ha, hd, hk] at h
                  simp at h
                | none =>
                  refine ⟨pm, sm, es, m, hid ▸ hpm, rfl, ?_, ?_, ?_, rfl, ?_⟩
                  · rfl
                  · exact hc
                  · rfl
                  · simp only [createNewOrder, hpm, hsm, hl, hc, ha, hd, hk]
                    simp [newOrder]

/-- Every run of `createNewOrder` leaves through one of its eight exits; for each,
the calls made and the response written. -/
theorem createNewOrder_exits [CommRing M] (env : Env M) (pld : ReqOrderCreate M) :
    (∃ err, env.GetPaymentMethod pld.PaymentMethodID = .error err ∧
      (createNewOrder env pld).trace =
        [Effect.Begin, Effect.GetPaymentMethod pld.PaymentMethodID (some err),
          Effect.Rollback] ∧
      (createNewOrder env pld).resp =
        if err.isRecordNotFound then
          ⟨"Payment method not found", 404, some .PaymentMethodNotFound, some err, .empty⟩
        else ⟨"Database query failed", 500, some .DatabaseQueryFailed, some err, .empty⟩) ∨
    (∃ pm err es, env.GetPaymentMethod pld.PaymentMethodID = .ok pm ∧
      resolveShippingMethod env (newOrder env pld) = (.error err, es) ∧
      (createNewOrder env pld).trace =
        [Effect.Begin, Effect.GetPaymentMethod pld.PaymentMethodID none] ++ es ++
          [Effect.Rollback] ∧
      (createNewOrder env pld).resp =
        if err.isRecordNotFound then
          ⟨"Shipping method not found", 404, some .ShippingMethodNotFound, some err, .empty⟩
        else ⟨"Database query failed", 500, some .DatabaseQueryFailed, some err, .empty⟩) ∨
    (∃ pm sm es err, env.GetPaymentMethod pld.PaymentMethodID = .ok pm ∧
      resolveShippingMethod env (newOrder env pld) = (.ok sm, es) ∧
      (reservation env pld).err = some err ∧
      (createNewOrder env pld).trace =
        [Effect.Begin, Effect.GetPaymentMethod pld.PaymentMethodID none] ++ es ++
          (reservation env pld).trace ++ [Effect.Rollback] ∧
      (createNewOrder env pld).resp =
        if err.isRecordNotFound then
          ⟨"Product unavailable", 404, some .ProductUnavailable, some err, .empty⟩
        else ⟨"Database query failed", 500, some .DatabaseQueryFailed, some err, .empty⟩) ∨
    (∃ pm sm es err, env.GetPaymentMethod pld.PaymentMethodID = .ok pm ∧
      resolveShippingMethod env (newOrder env pld) = (.ok sm, es) ∧
      (reservation env pld).err = none ∧
      env.Create (priceOrder env pm sm (reservation env pld).o) = some err ∧
      (createNewOrder env pld).trace =
        [Effect.Begin, Effect.GetPaymentMethod pld.PaymentMethodID none] ++ es ++
          (reservation env pld).trace ++
          [Effect.Create (priceOrder env pm sm (reservation env pld).o) (some err)] ∧
      (createNewOrder env pld).resp =
        if err.isPrepared then
          ⟨"Invalid request", 400, some .InvalidRequest, some err, .empty⟩
        else ⟨"Database query failed", 500, some .DatabaseQueryFailed, some err, .empty⟩) ∨
    (∃ pm sm es err, env.GetPaymentMethod pld.PaymentMethodID = .ok pm ∧
      resolveShippingMethod env (newOrder env pld) = (.ok sm, es) ∧
      (reservation env pld).err = none ∧
      env.Create (priceOrder env pm sm (reservation env pld).o) = none ∧
      (addItems env 0 (reservation env pld).availableItems).1 = some err ∧
      (createNewOrder env pld).trace =
        [Effect.Begin, Effect.GetPaymentMethod pld.PaymentMethodID none] ++ es ++
          (reservation env pld).trace ++
          [Effect.Create (priceOrder env pm sm (reservation env pld).o) none] ++
          (addItems env 0 (reservation env pld).availableItems).2 ++ [Effect.Rollback] ∧
      (createNewOrder env pld).resp =
        ⟨"Database query failed", 500, some .DatabaseQueryFailed, some err, .empty⟩) ∨
    (∃ pm sm es err, env.GetPaymentMethod pld.PaymentMethodID = .ok pm ∧
      resolveShippingMethod env (newOrder env pld) = (.ok sm, es) ∧
      (reservation env pld).err = none ∧
      env.Create (priceOrder env pm sm (reservation env pld).o) = none ∧
      (addItems env 0 (reservation env pld).availableItems).1 = none ∧
      env.GetDetails (priceOrder env pm sm (reservation env pld).o).ID = .error err ∧
      (createNewOrder env pld).trace =
        [Effect.Begin, Effect.GetPaymentMethod pld.PaymentMethodID none] ++ es ++
          (reservation env pld).trace ++
          [Effect.Create (priceOrder env pm sm (reservation env pld).o) none] ++
          (addItems env 0 (reservation env pld).availableItems).2 ++
          [Effect.GetDetails (priceOrder env pm sm (reservation env pld).o).ID (some err),
            Effect.Rollback] ∧
      (createNewOrder env pld).resp =
        ⟨"Order not found", 404, some .OrderNotFound, some err, .empty⟩) ∨
    (∃ pm sm es err, env.GetPaymentMethod pld.PaymentMethodID = .ok pm ∧
      resolveShippingMethod env (newOrder env pld) = (.ok sm, es) ∧
      (reservation env pld).err = none ∧
      env.Create (priceOrder env pm sm (reservation env pld).o) = none ∧
      (addItems env 0 (reservation env pld).availableItems).1 = none ∧
      env.Commit = some err ∧
      (createNewOrder env pld).trace =
        [Effect.Begin, Effect.GetPaymentMethod pld.PaymentMethodID none] ++ es ++
          (reservation env pld).trace ++
          [Effect.Create (priceOrder env pm sm (reservation env pld).o) none] ++
          (addItems env 0 (reservation env pld).availableItems).2 ++
          [Effect.GetDetails (priceOrder env pm sm (reservation env pld).o).ID none,
            Effect.Commit (some err)] ∧
      (createNewOrder env pld).resp =
        ⟨"Database query failed", 500, some .DatabaseQueryFailed, some err, .empty⟩) ∨
    (createNewOrder env pld).resp.Status = 201 := by
  have hid : (newOrder env pld).PaymentMethodID = pld.PaymentMethodID := rfl
  cases hpm : env.GetPaymentMethod (newOrder env pld).PaymentMethodID with
  | error err =>
    refine Or.inl ⟨err, hid ▸ hpm, ?_, ?_⟩ <;>
      (simp only [createNewOrder, hpm]; split <;> simp [hid])
  | ok pm =>
    cases hsm : resolveShippingMethod env (newOrder env pld) with
    | mk res es =>
      cases res with
      | error err =>
        refine Or.inr (Or.inl ⟨pm, err, es, hid ▸ hpm, rfl, ?_, ?_⟩) <;>
          (simp only [createNewOrder, hpm, hsm]; split <;> simp [hid])
      | ok sm =>
        cases hl : (reserveItems env 0 pld.Items (newOrder env pld) []).err with
        | some err =>
          refine Or.inr (Or.inr (Or.inl ⟨pm, sm, es, err, hid ▸ hpm, rfl, rfl, ?_, ?_⟩)) <;>
            (simp only [createNewOrder, hpm, hsm, hl]; split <;> simp [hid])
        | none =>
          cases hc : env.Create
              (priceOrder env pm sm (reserveItems env 0 pld.Items (newOrder env pld) []).o) with
          | some err =>
            refine Or.inr (Or.inr (Or.inr (Or.inl
              ⟨pm, sm, es, err, hid ▸ hpm, rfl, rfl, hc, ?_, ?_⟩))) <;>
              (simp only [createNewOrder, hpm, hsm, hl, hc]; split <;> simp [hid])
          | none =>
            cases ha : (addItems env 0
                (reserveItems env 0 pld.Items (newOrder env pld) []).availableItems).1 with
            | some err =>
              refine Or.inr (Or.inr (Or.inr (Or.inr (Or.inl
                ⟨pm, sm, es, err, hid ▸ hpm, rfl, rfl, hc, rfl, ?_, ?_⟩)))) <;>
                (simp only [createNewOrder, hpm, hsm, hl, hc, ha] <;> simp [hid])
            | none =>
              cases hd : env.GetDetails
                  (priceOrder env pm sm
                    (reserveItems env 0 pld.Items (newOrder env pld) []).o).ID with
              | error err =>
                refine Or.inr (Or.inr (Or.inr (Or.inr (Or.inr (Or.inl
                  ⟨pm, sm, es, err, hid ▸ hpm, rfl, rfl, hc, rfl, hd, ?_, ?_⟩))))) <;>
                  (simp only [createNewOrder, hpm, hsm, hl, hc, ha, hd] <;> simp [hid])
              | ok m =>
                cases hk : env.Commit with
                | some err =>
                  refine Or.inr (Or.inr (Or.inr (Or.inr (Or.inr (Or.inr (Or.inl
                    ⟨pm, sm, es, err, hid ▸ hpm, rfl, rfl, hc, rfl, rfl, ?_, ?_⟩)))))) <;>
                    (simp only [createNewOrder, hpm, hsm, hl, hc, ha, hd, hk] <;> simp [hid])
                | none =>
                  refine Or.inr (Or.inr (Or.inr (Or.inr (Or.inr (Or.inr (Or.inr ?_))))))
                  simp only [createNewOrder, hpm, hsm, hl, hc, ha, hd, hk]

/-- What a run of `createNewOrder` that answers 201 handed to the repository: one
order header, priced from the totals at the exit of the reservation loop, and the
items the loop built, one per requested line. -/
theorem createNewOrder_rows [CommRing M] (env : Env M) (pld : ReqOrderCreate M)
    (h : (createNewOrder env pld).resp.Status = 201) :
    ∃ pm sm,
      env.GetPaymentMethod pld.PaymentMethodID = .ok pm ∧
      (∃ es, resolveShippingMethod env (newOrder env pld) = (.ok sm, es)) ∧
      createdOrders (createNewOrder env pld).trace =
        [priceOrder env pm sm (reserveItems env 0 pld.Items (newOrder env pld) []).o] ∧
      addedItems (createNewOrder env pld).trace =
        (reserveItems env 0 pld.Items (newOrder env pld) []).availableItems ∧
      (reserveItems env 0 pld.Items (newOrder env pld) []).err = none ∧
      Effect.Commit none ∈ (createNewOrder env pld).trace := by
  obtain ⟨pm, sm, es, m, hpm, hsm, hl, -, ha, -, heq⟩ := createNewOrder_created env pld h
  refine ⟨pm, sm, hpm, ⟨es, hsm⟩, ?_, ?_, hl, ?_⟩
  · rw [heq]
    have h1 := no_rows_of_no_rowWrite es (fun e he => by
      obtain ⟨id, oe, rfl⟩ := (hsm ▸ resolveShippingMethod_trace env (newOrder env pld)) e he
      rfl)
    have h2 := no_rows_of_no_rowWrite
      (reserveItems env 0 pld.Items (newOrder env pld) []).trace (fun e he => by
        obtain ⟨_, _, _, _, rfl, -⟩ := reserveItems_trace env pld.Items 0 _ [] e he
        rfl)
    simp only [createdOrders_append, h1.1, h2.1, addItems_ok env _ 0 ha, createdOrders_map]
    simp [createdOrders]
  · rw [heq]
    have h1 := no_rows_of_no_rowWrite es (fun e he => by
      obtain ⟨id, oe, rfl⟩ := (hsm ▸ resolveShippingMethod_trace env (newOrder env pld)) e he
      rfl)
    have h2 := no_rows_of_no_rowWrite
      (reserveItems env 0 pld.Items (newOrder env pld) []).trace (fun e he => by
        obtain ⟨_, _, _, _, rfl, -⟩ := reserveItems_trace env pld.Items 0 _ [] e he
        rfl)
    simp only [addedItems_append, h1.2, h2.2, addItems_ok env _ 0 ha, addedItems_map]
    simp [addedItems]
  · rw [heq]
    simp

end Created

/-! ## Reservations in a trace -/

section Reservations

variable {M : Type}

theorem getForOrder_not_mem_shipping (env : Env M) (o : Order M) (sid pid : String) (q : M)
    (oe : Option Err) : Effect.GetForOrder sid pid q oe ∉ (resolveShippingMethod env o).2 := by
  intro h
  obtain ⟨_, _, h2⟩ := resolveShippingMethod_trace env o _ h
  cases h2

theorem getForOrder_not_mem_addItems (env : Env M) (l : List (OrderedItem M)) (i : Nat)
    (sid pid : String) (q : M) (oe : Option Err) :
    Effect.GetForOrder sid pid q oe ∉ (addItems env i l).2 := by
  intro h
  obtain ⟨_, _, h2⟩ := addItems_trace env l i _ h
  cases h2

/-- A reservation call in the trace of `createNewOrder` was made by the reservation
loop. -/
theorem getForOrder_mem_reservation [CommRing M] (env : Env M) (pld : ReqOrderCreate M)
    (sid pid : String) (q : M) (oe : Option Err)
    (hmem : Effect.GetForOrder sid pid q oe ∈ (createNewOrder env pld).trace) :
    (∃ pm, env.GetPaymentMethod pld.PaymentMethodID = .ok pm) ∧
    (∃ sm es, resolveShippingMethod env (newOrder env pld) = (.ok sm, es)) ∧
    Effect.GetForOrder sid pid q oe ∈ (reservation env pld).trace := by
  have hs := getForOrder_not_mem_shipping env (newOrder env pld) sid pid q oe
  have ha := getForOrder_not_mem_addItems env (reservation env pld).availableItems 0 sid pid q oe
  rcases createNewOrder_exits env pld with
    ⟨e1, -, ht, -⟩ | ⟨pm, e1, es, -, hsm, ht, -⟩ | ⟨pm, sm, es, e1, hpm, hsm, -, ht, -⟩ |
    ⟨pm, sm, es, e1, hpm, hsm, -, -, ht, -⟩ | ⟨pm, sm, es, e1, hpm, hsm, -, -, -, ht, -⟩ |
    ⟨pm, sm, es, e1, hpm, hsm, -, -, -, -, ht, -⟩ |
    ⟨pm, sm, es, e1, hpm, hsm, -, -, -, -, ht, -⟩ | h201
  · simp [ht] at hmem
  · rw [hsm] at hs
    simp [ht, hs] at hmem
  · rw [hsm] at hs
    exact ⟨⟨pm, hpm⟩, ⟨sm, es, hsm⟩, by simpa [ht, hs] using hmem⟩
  · rw [hsm] at hs
    exact ⟨⟨pm, hpm⟩, ⟨sm, es, hsm⟩, by simpa [ht, hs] using hmem⟩
  · rw [hsm] at hs
    exact ⟨⟨pm, hpm⟩, ⟨sm, es, hsm⟩, by simpa [ht, hs, ha] using hmem⟩
  · rw [hsm] at hs
    exact ⟨⟨pm, hpm⟩, ⟨sm, es, hsm⟩, by simpa [ht, hs, ha] using hmem⟩
  · rw [hsm] at hs
    exact ⟨⟨pm, hpm⟩, ⟨sm, es, hsm⟩, by simpa [ht, hs, ha] using hmem⟩
  · obtain ⟨pm, sm, es, m, hpm, hsm, -, -, -, -, heq⟩ := createNewOrder_created env pld h201
    rw [hsm] at hs
    exact ⟨⟨pm, hpm⟩, ⟨sm, es, hsm⟩, by simpa [heq, hs, ha] using hmem⟩

theorem mem_addedItems (tr : List (Effect M)) (oi : OrderedItem M) :
    oi ∈ addedItems tr ↔ ∃ oe, Effect.AddOrderedItem oi oe ∈ tr := by
  induction tr with
  | nil => simp [addedItems]
  | cons e tr ih =>
    cases e with
    | AddOrderedItem oi2 err =>
      simp only [addedItems, List.mem_cons, ih, Effect.AddOrderedItem.injEq]
      constructor
      · rintro (h | ⟨oe, h⟩)
        · exact ⟨err, Or.inl ⟨h, rfl⟩⟩
        · exact ⟨oe, Or.inr h⟩
      · rintro ⟨oe, ⟨h, -⟩ | h⟩
        · exact Or.inl h
        · exact Or.inr ⟨oe, h⟩
    | _ => simp [addedItems, ih]

/-- The item loop hands over only items of the list it is given. -/
theorem addItems_mem (env : Env M) (l : List (OrderedItem M)) :
    ∀ (i : Nat) (oi : OrderedItem M) (oe : Option Err),
      Effect.AddOrderedItem oi oe ∈ (addItems env i l).2 → oi ∈ l := by
  induction l with
  | nil =>
    intro i oi oe h
    simp [addItems] at h
  | cons v rest ih =>
    intro i oi oe h
    cases hg : env.AddOrderedItem i v with
    | some err =>
      simp only [addItems, hg, List.mem_singleton, Effect.AddOrderedItem.injEq] at h
      simp [h.1]
    | none =>
      simp only [addItems, hg, List.mem_cons, Effect.AddOrderedItem.injEq] at h
      rcases h with h | h
      · simp [h.1]
      · exact List.mem_cons_of_mem _ (ih _ _ _ h)

theorem addOrderedItem_not_mem_shipping (env : Env M) (o : Order M) (oi : OrderedItem M)
    (oe : Option Err) : Effect.AddOrderedItem oi oe ∉ (resolveShippingMethod env o).2 := by
  intro h
  obtain ⟨_, _, h2⟩ := resolveShippingMethod_trace env o _ h
  cases h2

theorem addOrderedItem_not_mem_reservation [CommRing M] (env : Env M)
    (pld : ReqOrderCreate M) (oi : OrderedItem M) (oe : Option Err) :
    Effect.AddOrderedItem oi oe ∉ (reservation env pld).trace := by
  intro h
  obtain ⟨_, _, _, _, h2, -⟩ := reserveItems_trace env pld.Items 0 _ [] _ h
  cases h2

/-- Every item handed to `AddOrderedItem` by `createNewOrder` is one the reservation
loop built. -/
theorem addOrderedItem_mem_available [CommRing M] (env : Env M) (pld : ReqOrderCreate M)
    (oi : OrderedItem M) (oe : Option Err)
    (hmem : Effect.AddOrderedItem oi oe ∈ (createNewOrder env pld).trace) :
    oi ∈ (reservation env pld).availableItems := by
  have hs := addOrderedItem_not_mem_shipping env (newOrder env pld) oi oe
  have hr := addOrderedItem_not_mem_reservation env pld oi oe
  have ha := addItems_mem env (reservation env pld).availableItems 0 oi oe
  rcases createNewOrder_exits env pld with
    ⟨e1, -, ht, -⟩ | ⟨pm, e1, es, -, hsm, ht, -⟩ | ⟨pm, sm, es, e1, hpm, hsm, -, ht, -⟩ |
    ⟨pm, sm, es, e1, hpm, hsm, -, -, ht, -⟩ | ⟨pm, sm, es, e1, hpm, hsm, -, -, -, ht, -⟩ |
    ⟨pm, sm, es, e1, hpm, hsm, -, -, -, -, ht, -⟩ |
    ⟨pm, sm, es, e1, hpm, hsm, -, -, -, -, ht, -⟩ | h201
  · simp [ht] at hmem
  · rw [hsm] at hs
    simp [ht, hs] at hmem
  · rw [hsm] at hs
    simp [ht, hs, hr] at hmem
  · rw [hsm] at hs
    simp [ht, hs, hr] at hmem
  · rw [hsm] at hs
    exact ha (by simpa [ht, hs, hr] using hmem)
  · rw [hsm] at hs
    exact ha (by simpa [ht, hs, hr] using hmem)
  · rw [hsm] at hs
    exact ha (by simpa [ht, hs, hr] using hmem)
  · obtain ⟨pm, sm, es, m, hpm, hsm, -, -, -, -, heq⟩ := createNewOrder_created env pld h201
    rw [hsm] at hs
    exact ha (by simpa [heq, hs, hr] using hmem)

/-- A shipping-method lookup that succeeds returns a method exactly when the order
names one. -/
theorem resolveShippingMethod_ok (env : Env M) (o : Order M) (sm : Option (ShippingMethod M))
    (es : List (Effect M)) (h : resolveShippingMethod env o = (.ok sm, es)) :
    (o.ShippingMethodID = none ∧ sm = none) ∨
    (∃ id s, o.ShippingMethodID = some id ∧ env.GetShippingMethod id = .ok s ∧ sm = some s) := by
  unfold resolveShippingMethod at h
  split at h
  · next hnone =>
    simp only [Prod.mk.injEq, Except.ok.injEq] at h
    exact Or.inl ⟨hnone, h.1.symm⟩
  · next id hid =>
    split at h
    · simp at h
    · next s hs =>
      simp only [Prod.mk.injEq, Except.ok.injEq] at h
      exact Or.inr ⟨id, s, hid, hs, h.1.symm⟩

/-- The shipping charge `priceOrder` sets. -/
theorem priceOrder_shippingCharge [CommRing M] (env : Env M) (pm : PaymentMethod M)
    (sm : Option (ShippingMethod M)) (o : Order M)
    (h : (o.ShippingMethodID = none ∧ sm = none) ∨
      (∃ id s, o.ShippingMethodID = some id ∧ env.GetShippingMethod id = .ok s ∧ sm = some s)) :
    (priceOrder env pm sm o).ShippingCharge =
      (sm.map fun s => s.CalculateDeliveryCharge 0).getD o.ShippingCharge := by
  rcases h with ⟨h1, rfl⟩ | ⟨id, s, h1, -, rfl⟩ <;> simp [priceOrder, h1]

/-- A reservation loop that ends without error made only successful calls. -/
theorem reservation_ok_trace [CommRing M] (env : Env M) (pld : ReqOrderCreate M)
    (hl : (reservation env pld).err = none) :
    ∀ e ∈ (reservation env pld).trace, ∃ sid pid q, e = Effect.GetForOrder sid pid q none := by
  intro e he
  obtain ⟨sid, pid, q, oe, rfl, herr⟩ := reserveItems_trace env pld.Items 0 _ [] e he
  cases oe with
  | none => exact ⟨sid, pid, q, rfl⟩
  | some err =>
    have := herr err rfl
    rw [hl] at this
    cases this

/-- The store after a run of `createNewOrder` that answers 201: the order header and
the items built by the reservation loop have been added to the stored rows, and no
transaction is open. -/
theorem createNewOrder_state [CommRing M] (env : Env M) (pld : ReqOrderCreate M)
    (h : (createNewOrder env pld).resp.Status = 201) (s : DbState M) :
    ∃ o rs, createdOrders (createNewOrder env pld).trace = [o] ∧ o.ID = env.NewUUID ∧
      s.run (createNewOrder env pld).trace =
        ⟨⟨s.stored.orders ++ [o], s.stored.items ++ (reservation env pld).availableItems,
          s.stored.reserved ++ rs⟩, none⟩ := by
  obtain ⟨pm, sm, es, m, hpm, hsm, hl, -, ha, -, heq⟩ := createNewOrder_created env pld h
  obtain ⟨pm2, sm2, hpm2, ⟨es2, hsm2⟩, hc, -, -, -⟩ := createNewOrder_rows env pld h
  rw [hpm] at hpm2
  rw [hsm] at hsm2
  cases hpm2
  cases hsm2
  obtain ⟨_, -, h2, -, -⟩ := reserveItems_exit env pld.Items 0 (newOrder env pld) []
  have hes : ∀ s : DbState M, s.run es = s := by
    apply DbState.run_reads
    intro e he
    have := resolveShippingMethod_trace env (newOrder env pld)
    rw [hsm] at this
    exact Or.inl (this e he)
  obtain ⟨rs, hrs⟩ := DbState.run_reservations (reservation env pld).trace
    (reservation_ok_trace env pld hl) s.stored s.stored
  refine ⟨_, rs, hc, ?_, ?_⟩
  · rw [(priceOrder_fields env pm sm _).2.2.2.2.2, h2]
    rfl
  · rw [heq, addItems_ok env _ 0 ha]
    simp only [DbState.run_append, DbState.run_cons, DbState.run_nil, hes]
    have hb : (s.step Effect.Begin).step (Effect.GetPaymentMethod pld.PaymentMethodID none)
        = ⟨s.stored, some s.stored⟩ := rfl
    rw [hb, hrs]
    simp only [DbState.step, DbState.write, DbState.run_items]

/-- A run of `createNewOrder` in which the commit succeeds answers 201. -/
theorem createNewOrder_committed [CommRing M] (env : Env M) (pld : ReqOrderCreate M)
    (hmem : Effect.Commit none ∈ (createNewOrder env pld).trace) :
    (createNewOrder env pld).resp.Status = 201 := by
  have hs : Effect.Commit none ∉ (resolveShippingMethod env (newOrder env pld)).2 := by
    intro h
    obtain ⟨_, _, h2⟩ := resolveShippingMethod_trace env _ _ h
    cases h2
  have hr : Effect.Commit none ∉ (reservation env pld).trace := by
    intro h
    obtain ⟨_, _, _, _, h2, -⟩ := reserveItems_trace env pld.Items 0 _ [] _ h
    cases h2
  have ha : Effect.Commit none ∉ (addItems env 0 (reservation env pld).availableItems).2 := by
    intro h
    obtain ⟨_, _, h2⟩ := addItems_trace env _ 0 _ h
    cases h2
  rcases createNewOrder_exits env pld with
    ⟨e1, -, ht, -⟩ | ⟨pm, e1, es, -, hsm, ht, -⟩ | ⟨pm, sm, es, e1, hpm, hsm, -, ht, -⟩ |
    ⟨pm, sm, es, e1, hpm, hsm, -, -, ht, -⟩ | ⟨pm, sm, es, e1, hpm, hsm, -, -, -, ht, -⟩ |
    ⟨pm, sm, es, e1, hpm, hsm, -, -, -, -, ht, -⟩ |
    ⟨pm, sm, es, e1, hpm, hsm, -, -, -, -, ht, -⟩ | h201
  · simp [ht] at hmem
  · rw [hsm] at hs
    simp [ht, hs] at hmem
  · rw [hsm] at hs
    simp [ht, hs, hr] at hmem
  · rw [hsm] at hs
    simp [ht, hs, hr] at hmem
  · rw [hsm] at hs
    simp [ht, hs, hr, ha] at hmem
  · rw [hsm] at hs
    simp [ht, hs, hr, ha] at hmem
  · rw [hsm] at hs
    simp [ht, hs, hr, ha] at hmem
  · exact h201

end Reservations

/-! ## Claims -/

section Claims

variable {M : Type}

/-- C1: on every request on which `createNewOrder` succeeds (the transaction commits
and 201 is returned), exactly one order is handed to the repository, one item per
requested line is handed over, and the order's `GrandTotal` is the sum of the lines'
`SubTotal`s plus `TotalTax`, `TotalVat` and `ShippingCharge`. -/
theorem createNewOrder_grandTotal [CommRing M] (env : Env M) (pld : ReqOrderCreate M)
    (h : (createNewOrder env pld).resp.Status = 201) :
    Effect.Commit none ∈ (createNewOrder env pld).trace ∧
    ∃ o, createdOrders (createNewOrder env pld).trace = [o] ∧
      (addedItems (createNewOrder env pld).trace).length = pld.Items.length ∧
      o.GrandTotal =
        ((addedItems (createNewOrder env pld).trace).map fun oi => oi.SubTotal).sum
          + o.TotalTax + o.TotalVat + o.ShippingCharge := by
  obtain ⟨pm, sm, -, -, hc, ha, hl, hk⟩ := createNewOrder_rows env pld h
  obtain ⟨new, h1, h2, -, h4⟩ := reserveItems_exit env pld.Items 0 (newOrder env pld) []
  obtain ⟨hg, -, hs, -, -, -⟩ := priceOrder_fields env pm sm
    (reserveItems env 0 pld.Items (newOrder env pld) []).o
  refine ⟨hk, _, hc, ?_, ?_⟩
  · rw [ha, h1]
    simpa using h4 hl
  · rw [hg, hs, ha, h1, h2]
    simp [newOrder]

/-- The scenario of the specification: lines (price 10, quantity 2) and (price 5,
quantity 1), shipping charge 3, no tax or VAT. -/
theorem createNewOrder_grandTotal_witness :
    (createNewOrder sampleEnv samplePld).resp.Status = 201 ∧
    (createdOrders (createNewOrder sampleEnv samplePld).trace).map
        (fun o => (o.SubTotal, o.GrandTotal)) = [(25, 28)] ∧
    (Effect.Commit none ∈ (createNewOrder sampleEnv samplePld).trace ∧
      ∃ o, createdOrders (createNewOrder sampleEnv samplePld).trace = [o] ∧
        (addedItems (createNewOrder sampleEnv samplePld).trace).length
          = samplePld.Items.length ∧
        o.GrandTotal =
          ((addedItems (createNewOrder sampleEnv samplePld).trace).map
              fun oi => oi.SubTotal).sum
            + o.TotalTax + o.TotalVat + o.ShippingCharge) :=
  ⟨by decide, by decide, createNewOrder_grandTotal sampleEnv samplePld (by decide)⟩

/-- C2: the code at a failing input.  When persisting the order header fails,
`createNewOrder` answers 500 without calling `Rollback`: the transaction, with the
two reservations made in it, is left open. -/
theorem createNewOrder_header_failure_skips_rollback :
    (createNewOrder createFailsEnv samplePld).resp =
      ⟨"Database query failed", 500, some .DatabaseQueryFailed, some ⟨false, false⟩, .empty⟩ ∧
    Effect.Rollback ∉ (createNewOrder createFailsEnv samplePld).trace ∧
    (emptyDb.run (createNewOrder createFailsEnv samplePld).trace).tx =
      some ⟨[], [], [("s1", "p1", 2), ("s1", "p2", 1)]⟩ := by
  decide

/-- C3: the code at a failing input.  The order is stored with gateway `brainTree`
while the active gateway is `stripe`: `payOrder` calls `Pay` on `stripe`, and on no
other gateway. -/
theorem payOrder_pays_through_active_gateway :
    (payOrder stripeActiveEnv "o1" : PayOutcome Int).trace =
      [Effect.GetDetails "o1" none,
        Effect.Pay "stripe" ⟨"o1", "brainTree", some "nonce1", none⟩ none] := by
  decide

/-- C4: the code at a failing input.  The gateway's `Pay` succeeds with transaction
id `tx1`; the response and the in-memory view carry `tx1`, but the run makes no
write, and the stored order still has no transaction id. -/
theorem payOrder_transaction_id_not_stored :
    (payOrder captureEnv "o1" : PayOutcome Int).resp =
      some ⟨"", 200, none, none, .transaction "tx1"⟩ ∧
    (payOrder captureEnv "o1" : PayOutcome Int).view =
      some ⟨"o1", "brainTree", some "nonce1", some "tx1"⟩ ∧
    sampleDb.run (payOrder captureEnv "o1").trace = sampleDb ∧
    ((sampleDb.run (payOrder captureEnv "o1").trace).stored.order "o1").map
      (fun o => o.TransactionID) = some none := by
  decide

/-- C5: whenever the reservation of some line reports record-not-found,
`createNewOrder` answers 404 with code `ProductUnavailable`, its last call is the
rollback, it hands neither an order header nor a line item to the repository, and
the stored rows are what they were before the request, however many earlier lines
were reserved. -/
theorem createNewOrder_productUnavailable [CommRing M] (env : Env M) (pld : ReqOrderCreate M)
    (sid pid : String) (q : M) (err : Err)
    (hmem : Effect.GetForOrder sid pid q (some err) ∈ (createNewOrder env pld).trace)
    (hnf : err.isRecordNotFound = true) :
    (createNewOrder env pld).resp =
      ⟨"Product unavailable", 404, some .ProductUnavailable, some err, .empty⟩ ∧
    (createNewOrder env pld).trace.getLast? = some Effect.Rollback ∧
    (∀ e ∈ (createNewOrder env pld).trace, e.isRowWrite = false) ∧
    createdOrders (createNewOrder env pld).trace = [] ∧
    addedItems (createNewOrder env pld).trace = [] ∧
    ∀ s : DbState M, s.run (createNewOrder env pld).trace = ⟨s.stored, none⟩ := by
  obtain ⟨⟨pm0, hpm0⟩, ⟨sm0, es0, hsm0⟩, hin⟩ :=
    getForOrder_mem_reservation env pld sid pid q (some err) hmem
  obtain ⟨_, _, _, oe, hoe, herr⟩ := reserveItems_trace env pld.Items 0 _ [] _ hin
  have hl0 : (reservation env pld).err = some err := herr err (by cases hoe; rfl)
  have hes : ∀ e ∈ es0, ∃ id oe, e = Effect.GetShippingMethod id oe := by
    have := resolveShippingMethod_trace env (newOrder env pld)
    rwa [hsm0] at this
  rcases createNewOrder_exits env pld with
    ⟨e1, hpm, -, -⟩ | ⟨pm, e1, es, -, hsm, -, -⟩ | ⟨pm, sm, es, e1, -, hsm, hl, ht, hr⟩ |
    ⟨pm, sm, es, e1, -, -, hl, -, -, -⟩ | ⟨pm, sm, es, e1, -, -, hl, -, -, -, -⟩ |
    ⟨pm, sm, es, e1, -, -, hl, -, -, -, -, -⟩ |
    ⟨pm, sm, es, e1, -, -, hl, -, -, -, -, -⟩ | h201
  · rw [hpm0] at hpm
    cases hpm
  · rw [hsm0] at hsm
    cases hsm
  · rw [hsm0] at hsm
    cases hsm
    rw [hl0] at hl
    cases hl
    have hrows : ∀ e ∈ (createNewOrder env pld).trace, e.isRowWrite = false := by
      intro e he
      rw [ht] at he
      simp only [List.mem_append, List.mem_cons, List.mem_singleton, List.not_mem_nil,
        or_false] at he
      rcases he with (((rfl | rfl) | he) | he) | rfl
      · rfl
      · rfl
      · obtain ⟨_, _, rfl⟩ := hes e he
        rfl
      · obtain ⟨_, _, _, _, rfl, -⟩ := reserveItems_trace env pld.Items 0 _ [] e he
        rfl
      · rfl
    refine ⟨by rw [hr]; simp [hnf], by rw [ht, List.getLast?_concat], hrows,
      (no_rows_of_no_rowWrite _ hrows).1, (no_rows_of_no_rowWrite _ hrows).2, ?_⟩
    intro s
    rw [ht]
    have hmid : ∀ e ∈ Effect.GetPaymentMethod pld.PaymentMethodID none :: es0 ++
        (reservation env pld).trace, e.isTxControl = false := by
      intro e he
      simp only [List.cons_append, List.mem_cons, List.mem_append] at he
      rcases he with rfl | he | he
      · rfl
      · obtain ⟨_, _, rfl⟩ := hes e he
        rfl
      · obtain ⟨_, _, _, _, rfl, -⟩ := reserveItems_trace env pld.Items 0 _ [] e he
        rfl
    have := DbState.run_rolledBack _ hmid s
    simpa using this
  · rw [hl0] at hl
    cases hl
  · rw [hl0] at hl
    cases hl
  · rw [hl0] at hl
    cases hl
  · rw [hl0] at hl
    cases hl
  · obtain ⟨_, _, _, _, -, -, hl, -⟩ := createNewOrder_created env pld h201
    rw [hl0] at hl
    cases hl

/-- The second line of the sample request is out of stock, after the first was
reserved. -/
theorem createNewOrder_productUnavailable_witness :
    Effect.GetForOrder "s1" "p2" 1 (some ⟨true, false⟩)
      ∈ (createNewOrder outOfStockEnv samplePld).trace ∧
    Effect.GetForOrder "s1" "p1" 2 none ∈ (createNewOrder outOfStockEnv samplePld).trace ∧
    ((createNewOrder outOfStockEnv samplePld).resp =
      ⟨"Product unavailable", 404, some .ProductUnavailable, some ⟨true, false⟩, .empty⟩ ∧
    (createNewOrder outOfStockEnv samplePld).trace.getLast? = some Effect.Rollback ∧
    (∀ e ∈ (createNewOrder outOfStockEnv samplePld).trace, e.isRowWrite = false) ∧
    createdOrders (createNewOrder outOfStockEnv samplePld).trace = [] ∧
    addedItems (createNewOrder outOfStockEnv samplePld).trace = [] ∧
    ∀ s : DbState Int, s.run (createNewOrder outOfStockEnv samplePld).trace = ⟨s.stored, none⟩) :=
  ⟨by decide, by decide,
    createNewOrder_productUnavailable outOfStockEnv samplePld "s1" "p2" 1 ⟨true, false⟩
      (by decide) (by decide)⟩

/-- C6: when the payment method id resolves to record-not-found, `createNewOrder`
answers 404 with code `PaymentMethodNotFound`; the only calls it makes are the
opening of the transaction, the lookup and the rollback, so no reservation, no
order write and no item write. -/
theorem createNewOrder_paymentMethodNotFound [CommRing M] (env : Env M)
    (pld : ReqOrderCreate M) (err : Err)
    (hpm : env.GetPaymentMethod pld.PaymentMethodID = .error err)
    (hnf : err.isRecordNotFound = true) :
    (createNewOrder env pld).resp =
      ⟨"Payment method not found", 404, some .PaymentMethodNotFound, some err, .empty⟩ ∧
    (createNewOrder env pld).trace =
      [Effect.Begin, Effect.GetPaymentMethod pld.PaymentMethodID (some err), Effect.Rollback] ∧
    ∀ e ∈ (createNewOrder env pld).trace, e.isReservation = false ∧ e.isRowWrite = false := by
  have hpm2 : env.GetPaymentMethod (newOrder env pld).PaymentMethodID = .error err := hpm
  have ht : (createNewOrder env pld).trace =
      [Effect.Begin, Effect.GetPaymentMethod pld.PaymentMethodID (some err),
        Effect.Rollback] := by
    simp only [createNewOrder, hpm2, hnf]
    rfl
  refine ⟨?_, ht, ?_⟩
  · simp only [createNewOrder, hpm2, hnf]
    rfl
  · intro e he
    rw [ht] at he
    simp only [List.mem_cons, List.mem_singleton, List.not_mem_nil, or_false] at he
    rcases he with rfl | rfl | rfl <;> exact ⟨rfl, rfl⟩

/-- The sample request against a repository that does not know the payment method. -/
theorem createNewOrder_paymentMethodNotFound_witness :
    noPaymentMethodEnv.GetPaymentMethod samplePld.PaymentMethodID = .error ⟨true, false⟩ ∧
    ((createNewOrder noPaymentMethodEnv samplePld).resp =
      ⟨"Payment method not found", 404, some .PaymentMethodNotFound, some ⟨true, false⟩,
        .empty⟩ ∧
    (createNewOrder noPaymentMethodEnv samplePld).trace =
      [Effect.Begin, Effect.GetPaymentMethod samplePld.PaymentMethodID (some ⟨true, false⟩),
        Effect.Rollback] ∧
    ∀ e ∈ (createNewOrder noPaymentMethodEnv samplePld).trace,
      e.isReservation = false ∧ e.isRowWrite = false) :=
  ⟨rfl, createNewOrder_paymentMethodNotFound noPaymentMethodEnv samplePld ⟨true, false⟩ rfl rfl⟩

/-- C7: every line item built by `createNewOrder` has `SubTotal = Quantity * Price`,
where `Quantity` is the requested quantity of its line and `Price` the unit price the
reservation of that line returned; and every item handed to the repository is one of
the items so built. -/
theorem createNewOrder_line_subTotal [CommRing M] (env : Env M) (pld : ReqOrderCreate M) :
    (∀ (j : Nat) (oi : OrderedItem M), (reservation env pld).availableItems[j]? = some oi →
      ∃ v p, pld.Items[j]? = some v ∧
        env.GetForOrder j pld.StoreID v.ID v.Quantity = .ok p ∧
        oi.Quantity = v.Quantity ∧ oi.Price = p.Price ∧
        oi.SubTotal = oi.Quantity * oi.Price) ∧
    (∀ oi ∈ addedItems (createNewOrder env pld).trace,
      oi ∈ (reservation env pld).availableItems) := by
  constructor
  · intro j oi h
    obtain ⟨v, p, hv, hp, rfl⟩ :=
      reserveItems_getElem env pld.Items 0 (newOrder env pld) [] j oi (by simpa using h)
    exact ⟨v, p, hv, by simpa using hp, rfl, rfl, rfl⟩
  · intro oi h
    obtain ⟨oe, hoe⟩ := (mem_addedItems _ oi).mp h
    exact addOrderedItem_mem_available env pld oi oe hoe

/-- The first line of the sample request: two units at the reserved price 10. -/
theorem createNewOrder_line_subTotal_witness :
    (reservation sampleEnv samplePld).availableItems[0]? = some ⟨"o1", "p1", 2, 10, 0, 0, 20⟩ ∧
    ∃ v p, samplePld.Items[0]? = some v ∧
      sampleEnv.GetForOrder 0 samplePld.StoreID v.ID v.Quantity = .ok p ∧
      (2 : Int) = v.Quantity ∧ (10 : Int) = p.Price ∧ (20 : Int) = 2 * 10 :=
  ⟨by decide,
    (createNewOrder_line_subTotal sampleEnv samplePld).1 0 ⟨"o1", "p1", 2, 10, 0, 0, 20⟩
      (by decide)⟩

/-- C8: on every request on which `createNewOrder` succeeds, the order handed to the
repository has `PaymentProcessingFee` equal to the resolved payment method's fee rule
applied to the order's final `GrandTotal`.  That total is subtotal plus tax, VAT and
shipping charge, each of which is fixed by the lines and the shipping method alone:
the fee is not part of it. -/
theorem createNewOrder_processingFee [CommRing M] (env : Env M) (pld : ReqOrderCreate M)
    (h : (createNewOrder env pld).resp.Status = 201) :
    ∃ pm sm o,
      env.GetPaymentMethod pld.PaymentMethodID = .ok pm ∧
      (∃ es, resolveShippingMethod env (newOrder env pld) = (.ok sm, es)) ∧
      createdOrders (createNewOrder env pld).trace = [o] ∧
      o.PaymentProcessingFee = pm.CalculateProcessingFee o.GrandTotal ∧
      o.GrandTotal = o.SubTotal + o.TotalTax + o.TotalVat + o.ShippingCharge ∧
      o.SubTotal = ((addedItems (createNewOrder env pld).trace).map fun oi => oi.SubTotal).sum ∧
      o.TotalTax = 0 ∧ o.TotalVat = 0 ∧
      o.ShippingCharge = (sm.map fun s => s.CalculateDeliveryCharge 0).getD 0 := by
  obtain ⟨pm, sm, hpm, ⟨es, hsm⟩, hc, ha, -, -⟩ := createNewOrder_rows env pld h
  obtain ⟨new, h1, h2, h3, -⟩ := reserveItems_exit env pld.Items 0 (newOrder env pld) []
  obtain ⟨hg, hf, hs, ht, hv, -⟩ := priceOrder_fields env pm sm
    (reserveItems env 0 pld.Items (newOrder env pld) []).o
  have hship := priceOrder_shippingCharge env pm sm
    (reserveItems env 0 pld.Items (newOrder env pld) []).o
    (by rw [h2]; exact resolveShippingMethod_ok env (newOrder env pld) sm es hsm)
  have htax : (new.map fun oi => oi.TotalTax).sum = 0 :=
    List.sum_eq_zero (by
      intro x hx
      obtain ⟨oi, hoi, rfl⟩ := List.mem_map.mp hx
      exact (h3 oi hoi).1)
  have hvat : (new.map fun oi => oi.TotalVat).sum = 0 :=
    List.sum_eq_zero (by
      intro x hx
      obtain ⟨oi, hoi, rfl⟩ := List.mem_map.mp hx
      exact (h3 oi hoi).2.1)
  refine ⟨pm, sm, _, hpm, ⟨es, hsm⟩, hc, hf, hg, ?_, ?_, ?_, ?_⟩
  · rw [hs, ha, h1, h2]
    simp [newOrder]
  · rw [ht, h2]
    simp [newOrder, htax]
  · rw [hv, h2]
    simp [newOrder, hvat]
  · rw [hship, h2]
    rfl

/-- The sample request with a payment method that charges 2 plus the amount: the fee
on the grand total 28 is 30, and the grand total stays 28. -/
theorem createNewOrder_processingFee_witness :
    (createdOrders (createNewOrder feeEnv samplePld).trace).map
      (fun o => (o.GrandTotal, o.PaymentProcessingFee)) = [(28, 30)] ∧
    ∃ pm sm o,
      feeEnv.GetPaymentMethod samplePld.PaymentMethodID = .ok pm ∧
      (∃ es, resolveShippingMethod feeEnv (newOrder feeEnv samplePld) = (.ok sm, es)) ∧
      createdOrders (createNewOrder feeEnv samplePld).trace = [o] ∧
      o.PaymentProcessingFee = pm.CalculateProcessingFee o.GrandTotal ∧
      o.GrandTotal = o.SubTotal + o.TotalTax + o.TotalVat + o.ShippingCharge ∧
      o.SubTotal =
        ((addedItems (createNewOrder feeEnv samplePld).trace).map fun oi => oi.SubTotal).sum ∧
      o.TotalTax = 0 ∧ o.TotalVat = 0 ∧
      o.ShippingCharge = (sm.map fun s => s.CalculateDeliveryCharge 0).getD 0 :=
  ⟨by decide, createNewOrder_processingFee feeEnv samplePld (by decide)⟩

/-- C9: whenever the gateway's `Pay` returns an error during a capture request,
`payOrder` answers 500 with code `PaymentProcessingFailed`, makes no write, and
leaves every store exactly as it was (status, paid flag and transaction id of the
stored order included). -/
theorem payOrder_paymentProcessingFailed (env : PayEnv) (orderID g : String)
    (v : OrderDetailsView) (err : Err)
    (hmem : Effect.Pay g v (some err) ∈ (payOrder env orderID : PayOutcome M).trace) :
    (payOrder env orderID : PayOutcome M).resp =
      some ⟨"Failed to process payment", 500, some .PaymentProcessingFailed, some err,
        .empty⟩ ∧
    (∀ e ∈ (payOrder env orderID : PayOutcome M).trace,
      e.isRowWrite = false ∧ e.isReservation = false ∧ e.isTxControl = false) ∧
    ∀ s : DbState M, s.run (payOrder env orderID).trace = s := by
  cases hd : env.GetDetails orderID with
  | error e1 => simp [payOrder, hd] at hmem
  | ok m =>
    by_cases hg : m.PaymentGateway = "brainTree"
    · cases hb : env.Bind with
      | error e1 => simp [payOrder, hd, if_pos hg, processBrainTree, hb] at hmem
      | ok body =>
        cases hp : env.GetActivePaymentGateway.Pay { m with Nonce := body.Nonce } with
        | error e1 =>
          simp only [payOrder, hd, if_pos hg, processBrainTree, hb, hp, List.mem_cons,
            List.mem_singleton, reduceCtorEq, false_or, Effect.Pay.injEq, Option.some.injEq,
            List.not_mem_nil, or_false] at hmem
          obtain ⟨-, -, rfl⟩ := hmem
          simp only [payOrder, hd, if_pos hg, processBrainTree, hb, hp]
          refine ⟨trivial, ?_, ?_⟩
          · intro e he
            simp only [List.mem_cons, List.mem_singleton, List.not_mem_nil, or_false] at he
            rcases he with rfl | rfl <;> exact ⟨rfl, rfl, rfl⟩
          · intro s
            rfl
        | ok res => simp [payOrder, hd, if_pos hg, processBrainTree, hb, hp] at hmem
    · simp [payOrder, hd, hg] at hmem

/-- A capture request whose gateway call is declined. -/
theorem payOrder_paymentProcessingFailed_witness :
    Effect.Pay "brainTree" ⟨"o1", "brainTree", some "nonce1", none⟩ (some ⟨false, false⟩)
      ∈ (payOrder declinedEnv "o1" : PayOutcome Int).trace ∧
    ((payOrder declinedEnv "o1" : PayOutcome Int).resp =
      some ⟨"Failed to process payment", 500, some .PaymentProcessingFailed,
        some ⟨false, false⟩, .empty⟩ ∧
    (∀ e ∈ (payOrder declinedEnv "o1" : PayOutcome Int).trace,
      e.isRowWrite = false ∧ e.isReservation = false ∧ e.isTxControl = false) ∧
    ∀ s : DbState Int, s.run (payOrder declinedEnv "o1").trace = s) :=
  ⟨by decide,
    payOrder_paymentProcessingFailed declinedEnv "o1" "brainTree"
      ⟨"o1", "brainTree", some "nonce1", none⟩ ⟨false, false⟩ (by decide)⟩

/-- The non-empty item list is the validator's doing: handed an empty list directly,
`createNewOrder` commits an order header with no item. -/
theorem createNewOrder_empty_items :
    (createNewOrder sampleEnv { samplePld with Items := [] }).resp.Status = 201 ∧
    (createdOrders (createNewOrder sampleEnv { samplePld with Items := [] }).trace).length = 1 ∧
    addedItems (createNewOrder sampleEnv { samplePld with Items := [] }).trace = [] := by
  decide

/-- C10: whenever a request to `createOrder` leads `createNewOrder` to commit, the
request's item list is not empty, one order header is persisted, and the stored rows
hold at least one `OrderedItem` owned by that order. -/
theorem createOrder_committed_order_has_items [CommRing M] (env : Env M)
    (check : ReqOrderCreate M → Option Err) (userID : String) (body : ReqOrderCreate M)
    (s : DbState M)
    (hc : Effect.Commit none ∈ (createOrder env check userID body).trace) :
    body.Items ≠ [] ∧
    ∃ o, createdOrders (createOrder env check userID body).trace = [o] ∧
      o ∈ (s.run (createOrder env check userID body).trace).stored.orders ∧
      1 ≤ ((s.run (createOrder env check userID body).trace).stored.itemsOf o.ID).length := by
  cases hv : ValidateCreateOrder check body with
  | error err => simp [createOrder, hv] at hc
  | ok pld =>
    have hbody : body.Items.isEmpty = false ∧ pld = body := by
      unfold ValidateCreateOrder at hv
      split at hv
      · cases hv
      · next hne =>
        split at hv
        · cases hv
        · cases hv
          exact ⟨by simpa using hne, rfl⟩
    obtain ⟨hne, rfl⟩ := hbody
    have hne2 : pld.Items ≠ [] := by
      intro h0
      rw [h0] at hne
      cases hne
    simp only [createOrder, hv] at hc ⊢
    have h201 := createNewOrder_committed env { pld with UserID := userID } hc
    obtain ⟨o, rs, hco, hid, hrun⟩ := createNewOrder_state env { pld with UserID := userID } h201 s
    obtain ⟨new, h1, -, h3, h4⟩ := reserveItems_exit env pld.Items 0
      (newOrder env { pld with UserID := userID }) []
    obtain ⟨_, _, -, -, -, -, hl, -⟩ :=
      createNewOrder_rows env { pld with UserID := userID } h201
    refine ⟨hne2, o, hco, ?_, ?_⟩
    · rw [hrun]
      simp
    · rw [hrun]
      simp only [Tables.itemsOf, reservation, h1, List.nil_append, List.filter_append,
        List.length_append]
      have hall : new.filter (fun oi => oi.OrderID == o.ID) = new := by
        rw [List.filter_eq_self]
        intro oi hoi
        rw [(h3 oi hoi).2.2, hid]
        simp [newOrder]
      rw [hall, h4 hl]
      have : 0 < pld.Items.length := List.length_pos.mpr hne2
      omega

/-- The sample request through `createOrder`: the commit is reached, and the stored
order `o1` owns its two items. -/
theorem createOrder_committed_order_has_items_witness :
    Effect.Commit none ∈ (createOrder sampleEnv (fun _ => none) "u1" samplePld).trace ∧
    (emptyDb.run (createOrder sampleEnv (fun _ => none) "u1" samplePld).trace).stored.itemsOf "o1"
      = [⟨"o1", "p1", 2, 10, 0, 0, 20⟩, ⟨"o1", "p2", 1, 5, 0, 0, 5⟩] ∧
    (samplePld.Items ≠ [] ∧
    ∃ o, createdOrders (createOrder sampleEnv (fun _ => none) "u1" samplePld).trace = [o] ∧
      o ∈ (emptyDb.run
        (createOrder sampleEnv (fun _ => none) "u1" samplePld).trace).stored.orders ∧
      1 ≤ ((emptyDb.run
        (createOrder sampleEnv (fun _ => none) "u1" samplePld).trace).stored.itemsOf
          o.ID).length) :=
  ⟨by decide, by decide,
    createOrder_committed_order_has_items sampleEnv (fun _ => none) "u1" samplePld emptyDb
      (by decide)⟩

/-- C11: on every request on which `createNewOrder` succeeds, as many line items as
the request has lines are handed to the repository and persisted, in request order:
the item at position `j` carries the quantity of the `j`-th requested line and the
product and price the `j`-th reservation returned.  Lines are never merged, whatever
products they name. -/
theorem createNewOrder_items_in_request_order [CommRing M] (env : Env M)
    (pld : ReqOrderCreate M) (s : DbState M)
    (h : (createNewOrder env pld).resp.Status = 201) :
    (addedItems (createNewOrder env pld).trace).length = pld.Items.length ∧
    (s.run (createNewOrder env pld).trace).stored.items =
      s.stored.items ++ addedItems (createNewOrder env pld).trace ∧
    ∀ (j : Nat) (v : ReqOrderItem M), pld.Items[j]? = some v →
      ∃ p, env.GetForOrder j pld.StoreID v.ID v.Quantity = .ok p ∧
        (addedItems (createNewOrder env pld).trace)[j]? =
          some ⟨env.NewUUID, p.ID, v.Quantity, p.Price, 0, 0, v.Quantity * p.Price⟩ := by
  obtain ⟨_, _, -, -, -, ha, hl, -⟩ := createNewOrder_rows env pld h
  obtain ⟨new, h1, -, -, h4⟩ := reserveItems_exit env pld.Items 0 (newOrder env pld) []
  obtain ⟨o, rs, -, -, hrun⟩ := createNewOrder_state env pld h s
  have hlen : (reservation env pld).availableItems.length = pld.Items.length := by
    rw [h1]
    simpa using h4 hl
  refine ⟨by rw [ha]; exact hlen, by rw [hrun, ha], ?_⟩
  intro j v hv
  have hj : j < pld.Items.length := by
    by_contra hge
    rw [List.getElem?_eq_none (by omega)] at hv
    cases hv
  obtain ⟨oi, hget⟩ : ∃ oi, (reservation env pld).availableItems[j]? = some oi :=
    ⟨_, List.getElem?_eq_getElem (by omega)⟩
  obtain ⟨v2, p, hv2, hp, hoi⟩ :=
    reserveItems_getElem env pld.Items 0 (newOrder env pld) [] j oi (by
      simp only [List.length_nil, Nat.zero_add]
      exact hget)
  rw [hv] at hv2
  cases hv2
  refine ⟨p, by simpa using hp, ?_⟩
  rw [ha, hget, hoi]
  rfl

/-- Two lines naming the same product `p1`: two items are persisted, one per line. -/
theorem createNewOrder_items_in_request_order_witness :
    (createNewOrder sampleEnv duplicateLinesPld).resp.Status = 201 ∧
    (emptyDb.run (createNewOrder sampleEnv duplicateLinesPld).trace).stored.items =
      [⟨"o1", "p1", 2, 10, 0, 0, 20⟩, ⟨"o1", "p1", 3, 10, 0, 0, 30⟩] ∧
    ((addedItems (createNewOrder sampleEnv duplicateLinesPld).trace).length
      = duplicateLinesPld.Items.length ∧
    (emptyDb.run (createNewOrder sampleEnv duplicateLinesPld).trace).stored.items =
      emptyDb.stored.items ++ addedItems (createNewOrder sampleEnv duplicateLinesPld).trace ∧
    ∀ (j : Nat) (v : ReqOrderItem Int), duplicateLinesPld.Items[j]? = some v →
      ∃ p, sampleEnv.GetForOrder j duplicateLinesPld.StoreID v.ID v.Quantity = .ok p ∧
        (addedItems (createNewOrder sampleEnv duplicateLinesPld).trace)[j]? =
          some ⟨sampleEnv.NewUUID, p.ID, v.Quantity, p.Price, 0, 0, v.Quantity * p.Price⟩) :=
  ⟨by decide, by decide,
    createNewOrder_items_in_request_order sampleEnv duplicateLinesPld emptyDb (by decide)⟩

/-- C12: the code at a failing input.  The order is stored with a gateway name other
than `brainTree`: `payOrder` loads it, matches no case of its switch and returns
without writing any response. -/
theorem payOrder_unlisted_gateway_writes_no_response :
    (payOrder unlistedGatewayEnv "o1" : PayOutcome Int).resp = none ∧
    (payOrder unlistedGatewayEnv "o1" : PayOutcome Int).trace =
      [Effect.GetDetails "o1" none] := by
  decide

end Claims

end Shopicano
